import Mathlib

/-!
Verification development for the clinical-trials explorer script (`analyse.py`).

The script fetches study records from an external catalog, extracts fields from
each raw JSON record inside a `try/except continue` loop, normalizes the two
date columns with a length-based month-completion rule followed by
`pd.to_datetime(..., errors='coerce')`, drops rows lacking either date,
sorts the frame by the `Status` column, rewrites the `Link` column to an HTML
anchor, and renders a table projection and a Plotly timeline from the same
frame.  Everything below is a shallow embedding of that pipeline; each
definition's doc comment names the lines of `analyse.py` it embeds.
-/

/-- Calendar date at day precision (model of a pandas `Timestamp`'s date part). -/
structure Date where
  year : Nat
  month : Nat
  day : Nat
deriving DecidableEq

/-- Gregorian leap-year rule. -/
def isLeap (y : Nat) : Bool :=
  (y % 4 == 0 && y % 100 != 0) || y % 400 == 0

/-- Number of days in a month of a given year. -/
def daysInMonth (y m : Nat) : Nat :=
  if m == 2 then (if isLeap y then 29 else 28)
  else if m == 4 || m == 6 || m == 9 || m == 11 then 30
  else 31

/-- Calendar validity of a date (what `pd.to_datetime` accepts as a real date). -/
def Date.valid (d : Date) : Bool :=
  1 ≤ d.month && d.month ≤ 12 && 1 ≤ d.day && d.day ≤ daysInMonth d.year d.month

/-- Numeric key `yyyymmdd` used to express the `pandas.Timestamp` range check. -/
def Date.key (d : Date) : Nat := d.year * 10000 + d.month * 100 + d.day

/-- `pandas.Timestamp` is a 64-bit nanosecond count: midnight dates are
representable exactly from 1677-09-22 through 2262-04-11; `errors='coerce'`
turns out-of-bounds dates into `NaT`. -/
def Date.inTimestampBounds (d : Date) : Bool :=
  16770922 ≤ d.key && d.key ≤ 22620411

/-- Build a date if it is a valid in-bounds calendar date, else `none` (`NaT`). -/
def mkDate (y m d : Nat) : Option Date :=
  if Date.valid ⟨y, m, d⟩ && Date.inTimestampBounds ⟨y, m, d⟩ then some ⟨y, m, d⟩ else none

/-- Decimal digit value of a character, if it is a digit. -/
def digitVal (c : Char) : Option Nat :=
  if c.isDigit then some (c.toNat - 48) else none

/-- Two-digit decimal number. -/
def digits2 (a b : Char) : Option Nat := do
  let x ← digitVal a
  let y ← digitVal b
  return 10 * x + y

/-- Four-digit decimal number. -/
def digits4 (a b c d : Char) : Option Nat := do
  let x ← digits2 a b
  let y ← digits2 c d
  return 100 * x + y

/-- Model of scalar string parsing in `pd.to_datetime(s, errors='coerce')`,
restricted to the ISO-8601 date shapes that occur in this data source:
`YYYY-MM-DD` parses as that day, `YYYY-MM` as the first of the month, and
`YYYY` as January 1 of that year; anything else is `NaT` (`none`).  The real
pandas parser additionally accepts verbose non-ISO spellings; those are outside
the modelled input family and no theorem below depends on them (the parser
accepting *more* strings only strengthens the refutations proved here). -/
def parseIsoDate (s : String) : Option Date :=
  match s.toList with
  | [y1, y2, y3, y4, '-', m1, m2, '-', d1, d2] =>
      match digits4 y1 y2 y3 y4, digits2 m1 m2, digits2 d1 d2 with
      | some y, some m, some d => mkDate y m d
      | _, _, _ => none
  | [y1, y2, y3, y4, '-', m1, m2] =>
      match digits4 y1 y2 y3 y4, digits2 m1 m2 with
      | some y, some m => mkDate y m 1
      | _, _ => none
  | [y1, y2, y3, y4] =>
      match digits4 y1 y2 y3 y4 with
      | some y => mkDate y 1 1
      | _ => none
  | _ => none

/-- Result of a Python expression that may raise: either a value or an
uncaught exception. -/
inductive PyResult (α : Type) where
  | ok (val : α)
  | exn
deriving DecidableEq

/-- Value of a `PyResult` with a default for the exception case. -/
def PyResult.getD (r : PyResult α) (d : α) : α :=
  match r with
  | .ok v => v
  | .exn => d

mutual
/-- JSON values as delivered by `response.json()`, restricted to the
constructors this script's data exercises: objects, strings and `null`
(numeric, boolean and array leaves do not occur in the modelled fragment). -/
inductive JVal where
  | str (s : String)
  | null
  | obj (fields : JFields)
deriving DecidableEq
/-- Ordered key/value fields of a JSON object (Python `dict`). -/
inductive JFields where
  | nil
  | cons (key : String) (val : JVal) (rest : JFields)
deriving DecidableEq
end

/-- First value stored under a key (Python `dict` keys are unique, so
first-match lookup is exact). -/
def JFields.lookup : JFields → String → Option JVal
  | .nil, _ => none
  | .cons k v rest, key => if k = key then some v else rest.lookup key

/-- Build a JSON object from a list of fields. -/
def JFields.ofList : List (String × JVal) → JFields
  | [] => .nil
  | (k, v) :: rest => .cons k v (ofList rest)

/-- Convenience constructor for JSON object literals. -/
def jobj (l : List (String × JVal)) : JVal := .obj (JFields.ofList l)

/-- Model of Python's `x.get(key, default)`: returns the stored value or the
default when `x` is a `dict`; any other receiver raises `AttributeError`
(modelled as `none`, which the extraction loop's `except` clause catches). -/
def JVal.getD (v : JVal) (key : String) (dflt : JVal) : Option JVal :=
  match v with
  | .obj fs => some ((fs.lookup key).getD dflt)
  | _ => none

mutual
/-- Python `repr` of a JSON value (exact for strings without quote or escape
characters, which is all that reaches it in this development). -/
def JVal.pyRepr : JVal → String
  | .str s => "'" ++ s ++ "'"
  | .null => "None"
  | .obj fs => "\x7b" ++ JFields.reprFields fs ++ "\x7d"
/-- Comma-separated `repr` of a `dict`'s fields. -/
def JFields.reprFields : JFields → String
  | .nil => ""
  | .cons k v .nil => "'" ++ k ++ "': " ++ v.pyRepr
  | .cons k v rest => "'" ++ k ++ "': " ++ v.pyRepr ++ ", " ++ JFields.reprFields rest
end

/-- Python `str(x)` as used by f-string interpolation. -/
def JVal.pyStr : JVal → String
  | .str s => s
  | v => v.pyRepr

/-- Python `s.upper()` on ASCII text (the statuses this script uppercases are
ASCII; non-ASCII case mapping is outside the modelled fragment). -/
def pyUpper (s : String) : String := String.mk (s.toList.map Char.toUpper)

/-- Model of calling `.upper()` on a fetched JSON value: succeeds on strings,
raises `AttributeError` (modelled `none`) on any other receiver. -/
def JVal.upperOrFail : JVal → Option String
  | .str s => some (pyUpper s)
  | _ => none

/-- Python string `<=`: lexicographic comparison by code point. -/
def charListLe : List Char → List Char → Bool
  | [], _ => true
  | _ :: _, [] => false
  | a :: as, b :: bs =>
    if a.toNat < b.toNat then true
    else if b.toNat < a.toNat then false
    else charListLe as bs

/-- Python string `<=` lifted to `String` (this is the comparison pandas uses
to sort an object column of Python strings). -/
def pyStrLe (a b : String) : Bool := charListLe a.toList b.toList

theorem charListLe_total : ∀ as bs : List Char,
    charListLe as bs = true ∨ charListLe bs as = true := by
  intro as
  induction as with
  | nil => intro bs; left; rfl
  | cons a as ih =>
    intro bs
    cases bs with
    | nil => right; rfl
    | cons b bs =>
      by_cases h1 : a.toNat < b.toNat
      · left; simp [charListLe, h1]
      · by_cases h2 : b.toNat < a.toNat
        · right; simp [charListLe, h1, h2]
        · have := ih bs
          rcases this with h | h
          · left; simp [charListLe, h1, h2, h]
          · right; simp [charListLe, h1, h2, h]

theorem charListLe_trans : ∀ as bs cs : List Char,
    charListLe as bs = true → charListLe bs cs = true → charListLe as cs = true := by
  intro as
  induction as with
  | nil => intro bs cs _ _; rfl
  | cons a as ih =>
    intro bs cs hab hbc
    cases bs with
    | nil => simp [charListLe] at hab
    | cons b bs =>
      cases cs with
      | nil => simp [charListLe] at hbc
      | cons c cs =>
        simp only [charListLe] at hab hbc ⊢
        split at hab
        · -- a < b
          rename_i h1
          split at hbc
          · rename_i h2; simp [show a.toNat < c.toNat by omega]
          · split at hbc
            · exact absurd hbc (by simp)
            · rename_i h2 h3
              simp [show a.toNat < c.toNat by omega]
        · split at hab
          · exact absurd hab (by simp)
          · rename_i h1 h2
            -- a.toNat = b.toNat
            split at hbc
            · rename_i h3; simp [show a.toNat < c.toNat by omega]
            · split at hbc
              · exact absurd hbc (by simp)
              · rename_i h3 h4
                have hac1 : ¬ a.toNat < c.toNat := by omega
                have hac2 : ¬ c.toNat < a.toNat := by omega
                simp only [hac1, hac2, if_false]
                exact ih bs cs hab hbc

/-- One extracted row of the DataFrame before date normalization: the tuple
appended at `analyse.py:94` (`NCT ID, Title, Sponsor, Status, Start, End,
Last Verified, Study Type, Link`).  Date cells still hold raw JSON values. -/
structure StudyRow where
  nctId : JVal
  title : JVal
  sponsor : JVal
  status : String
  startDate : JVal
  endDate : JVal
  lastVerified : JVal
  studyType : JVal
  link : String
deriving DecidableEq

/-- Field reads of the extraction body (`analyse.py:38-94`), given the four
modules fetched at `analyse.py:33-36`.  Each value access is a `dict.get`
with a default; a structural mismatch (non-`dict` receiver, or `.upper()`
on a non-string) raises, modelled as `none`. -/
def extractFields (id_mod status_mod sponsor_mod design_mod : JVal) : Option StudyRow := do
  let nct_id ← id_mod.getD "nctId" (.str "")
  let title ← id_mod.getD "briefTitle" (.str "")
  let leadSponsor ← sponsor_mod.getD "leadSponsor" (jobj [])
  let sponsor ← leadSponsor.getD "name" (.str "N/A")
  let statusVal ← status_mod.getD "overallStatus" (.str "")
  let status ← statusVal.upperOrFail
  let startStruct ← status_mod.getD "startDateStruct" (jobj [])
  let start_date ← startStruct.getD "date" (.str "")
  let endStruct ← status_mod.getD "completionDateStruct" (jobj [])
  let end_date ← endStruct.getD "date" (.str "")
  let lvStruct ← status_mod.getD "lastUpdatePostDateStruct" (jobj [])
  let last_verified ← lvStruct.getD "date" (.str "")
  let study_type ← design_mod.getD "studyType" (.str "")
  let link := "https://clinicaltrials.gov/study/" ++ nct_id.pyStr
  return { nctId := nct_id, title := title, sponsor := sponsor, status := status,
           startDate := start_date, endDate := end_date, lastVerified := last_verified,
           studyType := study_type, link := link }

/-- Field extraction for one raw study (`analyse.py:31-94`): fetch the four
nested modules, then read the fields; any structural error makes the whole
record `none`, which the `except Exception: continue` clause skips — the
record is dropped in its entirety, never partially kept. -/
def extractStudy (study : JVal) : Option StudyRow := do
  let sec ← study.getD "protocolSection" (jobj [])
  let id_mod ← sec.getD "identificationModule" (jobj [])
  let status_mod ← sec.getD "statusModule" (jobj [])
  let sponsor_mod ← sec.getD "sponsorCollaboratorsModule" (jobj [])
  let design_mod ← sec.getD "designModule" (jobj [])
  extractFields id_mod status_mod sponsor_mod design_mod

/-- The `records` list built by the extraction loop (`analyse.py:29-96`):
every study the `try` body completes on contributes one tuple, every study
that raises is skipped and the loop continues with the next study. -/
def records (studies : List JVal) : List StudyRow :=
  studies.filterMap extractStudy

/-- Scalar `pd.to_datetime(x, errors='coerce')` over the modelled JSON leaf
types: a string parses per `parseIsoDate` (`NaT` when unparseable), `None`
is `NaT`, and a `dict` raises `ValueError` even under `errors='coerce'`
(pandas routes mappings into date-part assembly, which demands `year`,
`month` and `day` keys before any error coercion applies). -/
def pd_to_datetime (v : JVal) : PyResult (Option Date) :=
  match v with
  | .str s => .ok (parseIsoDate s)
  | .null => .ok none
  | .obj _ => .exn

/-- `normalize_date` (`analyse.py:107-110`): any 7-character string — the
check is on length alone — gets `"-01"` appended, then the value goes to
`pd.to_datetime(..., errors='coerce')`. -/
def normalize_date (v : JVal) : PyResult (Option Date) :=
  match v with
  | .str s => pd_to_datetime (.str (if s.length = 7 then s ++ "-01" else s))
  | v => pd_to_datetime v

/-- A DataFrame row after the two `.apply(normalize_date)` calls
(`analyse.py:112-113`): the `Start` and `End` cells now hold a timestamp or
`NaT`; `Last Verified` is never normalized and stays raw. -/
structure NormRow where
  nctId : JVal
  title : JVal
  sponsor : JVal
  status : String
  startDate : Option Date
  endDate : Option Date
  lastVerified : JVal
  studyType : JVal
  link : String
deriving DecidableEq

/-- Normalization of one row's two date cells; an exception in either
`normalize_date` call propagates out of `.apply` uncaught. -/
def normalizeRow (r : StudyRow) : PyResult NormRow :=
  match normalize_date r.startDate with
  | .exn => .exn
  | .ok s =>
    match normalize_date r.endDate with
    | .exn => .exn
    | .ok e =>
      .ok { nctId := r.nctId, title := r.title, sponsor := r.sponsor,
            status := r.status, startDate := s, endDate := e,
            lastVerified := r.lastVerified, studyType := r.studyType,
            link := r.link }

/-- `df["Start"].apply(normalize_date)` and `df["End"].apply(normalize_date)`
over all rows (`analyse.py:112-113`); the first cell that raises aborts the
whole pipeline. -/
def normalizeAll : List StudyRow → PyResult (List NormRow)
  | [] => .ok []
  | r :: rs =>
    match normalizeRow r with
    | .exn => .exn
    | .ok n =>
      match normalizeAll rs with
      | .exn => .exn
      | .ok ns => .ok (n :: ns)

/-- `df.dropna(subset=["Start", "End"])` (`analyse.py:114`): keep exactly the
rows whose two date cells are both non-`NaT`. -/
def dropnaStartEnd (rows : List NormRow) : List NormRow :=
  rows.filter (fun r => r.startDate.isSome && r.endDate.isSome)

/-- Row order used by `df.sort_values(by="Status")` (`analyse.py:115`):
Python string comparison on the `Status` cell. -/
def statusLe (a b : NormRow) : Prop := pyStrLe a.status b.status = true

instance : DecidableRel statusLe := fun a b =>
  inferInstanceAs (Decidable (pyStrLe a.status b.status = true))

instance : IsTotal NormRow statusLe :=
  ⟨fun a b => charListLe_total a.status.toList b.status.toList⟩

instance : IsTrans NormRow statusLe :=
  ⟨fun a b c => charListLe_trans a.status.toList b.status.toList c.status.toList⟩

/-- `df.sort_values(by="Status")` (`analyse.py:115`), modelled with a stable
sort.  (Pandas defaults to quicksort, which guarantees only a permutation
weakly ordered by the key; the model coincides with it on every input whose
`Status` keys are pairwise distinct, and no theorem below relies on the
relative order of rows with equal statuses.) -/
def sort_values (rows : List NormRow) : List NormRow :=
  List.insertionSort statusLe rows

/-- The HTML anchor written into the `Link` column (`analyse.py:118-120`). -/
def anchorHtml (x : JVal) : String :=
  "<a href=\"https://clinicaltrials.gov/study/" ++ x.pyStr ++ "\" target=\"_blank\">"
    ++ x.pyStr ++ "</a>"

/-- `df["Link"] = df["NCT ID"].apply(lambda x: ...)` (`analyse.py:118-120`). -/
def rewriteLink (r : NormRow) : NormRow :=
  { r with link := anchorHtml r.nctId }

/-- The fully processed DataFrame `df` (`analyse.py:102-120`) for a given
extracted record list: normalize both date columns, drop rows missing either
date, sort by status, rewrite the link column. -/
def processFrame (recs : List StudyRow) : PyResult (List NormRow) :=
  match normalizeAll recs with
  | .exn => .exn
  | .ok rows => .ok ((sort_values (dropnaStartEnd rows)).map rewriteLink)

/-- The canonical record set of a whole input batch: extraction followed by
frame processing. -/
def canonicalRecords (studies : List JVal) : PyResult (List NormRow) :=
  processFrame (records studies)

/-- One row of `df_display` (`analyse.py:123-125`): the columns
`Link, Title, Sponsor, Status, Study Type, Start, End, Last Verified`. -/
structure TableRow where
  link : String
  title : JVal
  sponsor : JVal
  status : String
  studyType : JVal
  startDate : Option Date
  endDate : Option Date
  lastVerified : JVal
deriving DecidableEq

/-- Projection of a processed row to a display-table row (`analyse.py:123`). -/
def toTableRow (r : NormRow) : TableRow :=
  { link := r.link, title := r.title, sponsor := r.sponsor, status := r.status,
    studyType := r.studyType, startDate := r.startDate, endDate := r.endDate,
    lastVerified := r.lastVerified }

/-- One bar of the Plotly timeline (`analyse.py:141-160`): `px.timeline` reads
`Start`/`End`/`NCT ID`/`Status` and the `Link` custom data from each row, and
`fig.update_traces(text=df["NCT ID"], ...)` puts the bare NCT ID inside the
bar as its label. -/
structure Bar where
  xStart : Option Date
  xEnd : Option Date
  y : JVal
  color : String
  text : JVal
  customLink : String
deriving DecidableEq

/-- Projection of a processed row to its timeline bar (`analyse.py:141-160`). -/
def toBar (r : NormRow) : Bar :=
  { xStart := r.startDate, xEnd := r.endDate, y := r.nctId, color := r.status,
    text := r.nctId, customLink := r.link }

/-- Terminal rendering state of one search: the `st.warning("No results
found.")` branch (`analyse.py:98-99`), the normal page with table and chart
(`analyse.py:100-191`), or an uncaught exception. -/
inductive Render where
  | warning
  | page (table : List TableRow) (bars : List Bar)
  | pyError
deriving DecidableEq

/-- The whole per-search pipeline (`analyse.py:29-191`).  Note the emptiness
test `if not records` runs on the extracted list, before date filtering: a
batch whose rows all lose their dates to `dropna` still renders a page, with
an empty table and an empty chart. -/
def render (studies : List JVal) : Render :=
  let recs := records studies
  if recs.isEmpty then .warning
  else
    match processFrame recs with
    | .exn => .pyError
    | .ok df => .page (df.map toTableRow) (df.map toBar)

/-- Table rows of the rendered page (empty in the warning and error states). -/
def renderTable (studies : List JVal) : List TableRow :=
  match render studies with
  | .page t _ => t
  | _ => []

/-- Timeline bars of the rendered page (empty in the warning and error states). -/
def renderBars (studies : List JVal) : List Bar :=
  match render studies with
  | .page _ b => b
  | _ => []

/-- A well-formed raw study record with the given id, overall status and the
two date strings, shaped like the API payload (`analyse.py` §input). -/
def studyJson (id status start stop : String) : JVal :=
  jobj [("protocolSection", jobj [
    ("identificationModule", jobj [("nctId", .str id), ("briefTitle", .str ("Study " ++ id))]),
    ("statusModule", jobj [("overallStatus", .str status),
       ("startDateStruct", jobj [("date", .str start)]),
       ("completionDateStruct", jobj [("date", .str stop)]),
       ("lastUpdatePostDateStruct", jobj [("date", .str "2024-01-01")])]),
    ("sponsorCollaboratorsModule", jobj [("leadSponsor", jobj [("name", .str "Acme")])]),
    ("designModule", jobj [("studyType", .str "INTERVENTIONAL")])])]

/-- The spec's Sequencer example: A starts 2021-03-01 / ends 2021-04-01,
B starts 2020-01-01 / ends 2020-06-01, C starts 2020-01-01 / ends 2020-02-01.
The statuses are pairwise distinct (COMPLETED < RECRUITING < WITHDRAWN in
Python string order), so every pandas sort kind produces the same row order
and the stable model is exact on this input. -/
def exSeq : List JVal :=
  [studyJson "A" "COMPLETED" "2021-03-01" "2021-04-01",
   studyJson "B" "RECRUITING" "2020-01-01" "2020-06-01",
   studyJson "C" "WITHDRAWN" "2020-01-01" "2020-02-01"]

/-- The spec's Deduplicator example: ids `A, A, B`, all with valid dates
(statuses pairwise distinct so the sorted order is unambiguous). -/
def exDup : List JVal :=
  [studyJson "A" "COMPLETED" "2021-01-01" "2021-02-01",
   studyJson "A" "RECRUITING" "2021-03-01" "2021-04-01",
   studyJson "B" "WITHDRAWN" "2021-05-01" "2021-06-01"]

/-- A raw study whose `identificationModule` lacks `nctId` but whose dates
are valid: extraction defaults the id to the empty string. -/
def noIdStudy : JVal :=
  jobj [("protocolSection", jobj [
    ("identificationModule", jobj [("briefTitle", .str "Untitled")]),
    ("statusModule", jobj [("overallStatus", .str "RECRUITING"),
       ("startDateStruct", jobj [("date", .str "2021-01-01")]),
       ("completionDateStruct", jobj [("date", .str "2021-02-01")]),
       ("lastUpdatePostDateStruct", jobj [("date", .str "2024-01-01")])]),
    ("sponsorCollaboratorsModule", jobj [("leadSponsor", jobj [("name", .str "Acme")])]),
    ("designModule", jobj [("studyType", .str "INTERVENTIONAL")])])]

/-- A raw study whose `protocolSection` is a string instead of an object:
the first `.get` call raises and the record is skipped. -/
def malformedStudy : JVal := jobj [("protocolSection", .str "oops")]

/-- A raw study that extracts fine but whose date strings parse to `NaT`,
so `dropna` removes its row. -/
def badDatesStudy : JVal := studyJson "A" "RECRUITING" "soon" "later"

/-- A date built by `mkDate` passed the calendar-validity check. -/
theorem mkDate_valid {y m d : Nat} {dt : Date} (h : mkDate y m d = some dt) :
    dt.valid = true := by
  unfold mkDate at h
  split at h
  · rename_i hc
    cases h
    exact (Bool.and_eq_true_iff.mp hc).1
  · cases h

/-- Every date produced by the modelled pandas string parser is a valid
calendar date. -/
theorem parseIsoDate_valid {s : String} {d : Date} (h : parseIsoDate s = some d) :
    d.valid = true := by
  unfold parseIsoDate at h
  split at h
  · split at h
    · exact mkDate_valid h
    · cases h
  · split at h
    · exact mkDate_valid h
    · cases h
  · split at h
    · exact mkDate_valid h
    · cases h
  · cases h

/-- Every date coming out of `normalize_date` without an exception is a
valid calendar date. -/
theorem normalize_date_valid {v : JVal} {d : Date}
    (h : normalize_date v = .ok (some d)) : d.valid = true := by
  cases v with
  | str s =>
    simp only [normalize_date, pd_to_datetime, PyResult.ok.injEq] at h
    exact parseIsoDate_valid h
  | null => simp [normalize_date, pd_to_datetime] at h
  | obj fs => simp [normalize_date, pd_to_datetime] at h

/-- `normalizeRow` keeps every non-date field and produces only valid dates. -/
theorem normalizeRow_ok {r : StudyRow} {n : NormRow} (h : normalizeRow r = .ok n) :
    n.nctId = r.nctId ∧ n.status = r.status ∧
    n.startDate.all Date.valid = true ∧ n.endDate.all Date.valid = true := by
  unfold normalizeRow at h
  split at h
  · cases h
  · rename_i s hs
    split at h
    · cases h
    · rename_i e he
      cases h
      refine ⟨rfl, rfl, ?_, ?_⟩
      · cases s with
        | none => rfl
        | some d => simpa using normalize_date_valid hs
      · cases e with
        | none => rfl
        | some d => simpa using normalize_date_valid he

/-- `normalizeAll` preserves the id column verbatim. -/
theorem normalizeAll_map_nctId : ∀ {l : List StudyRow} {l' : List NormRow},
    normalizeAll l = .ok l' →
    l'.map (fun n => n.nctId) = l.map (fun r => r.nctId) := by
  intro l
  induction l with
  | nil => intro l' h; cases h; rfl
  | cons r rs ih =>
    intro l' h
    unfold normalizeAll at h
    split at h
    · cases h
    · rename_i n hn
      split at h
      · cases h
      · rename_i ns hns
        cases h
        simp only [List.map_cons, (normalizeRow_ok hn).1, ih hns]

/-- Every row produced by `normalizeAll` carries only valid dates. -/
theorem normalizeAll_valid : ∀ {l : List StudyRow} {l' : List NormRow},
    normalizeAll l = .ok l' → ∀ n ∈ l',
    n.startDate.all Date.valid = true ∧ n.endDate.all Date.valid = true := by
  intro l
  induction l with
  | nil => intro l' h; cases h; intro n hn; cases hn
  | cons r rs ih =>
    intro l' h
    unfold normalizeAll at h
    split at h
    · cases h
    · rename_i n hn
      split at h
      · cases h
      · rename_i ns hns
        cases h
        intro m hm
        rcases List.mem_cons.mp hm with rfl | hm
        · exact ⟨(normalizeRow_ok hn).2.2.1, (normalizeRow_ok hn).2.2.2⟩
        · exact ih hns m hm

/-- Membership in the sorted frame is membership before sorting. -/
theorem mem_sort_values {r : NormRow} {rows : List NormRow} :
    r ∈ sort_values rows ↔ r ∈ rows :=
  (List.perm_insertionSort statusLe rows).mem_iff

/-- A default row used only to state closed witness instantiations. -/
def dummyRow : NormRow :=
  { nctId := .null, title := .null, sponsor := .null, status := "",
    startDate := none, endDate := none, lastVerified := .null,
    studyType := .null, link := "" }

/-- C1 counterexample: on the spec's own three-record example (starts
2021-03-01 / 2020-01-01 / 2020-01-01, ends 2021-04-01 / 2020-06-01 /
2020-02-01 for A / B / C), the pipeline does not order by start then end:
the claimed output `C, B, A` is refuted — the code sorts by the `Status`
column, giving `A, B, C` for statuses COMPLETED / RECRUITING / WITHDRAWN. -/
theorem c1_counterexample :
    ((canonicalRecords exSeq).getD []).map (fun r => r.nctId) =
      [.str "A", .str "B", .str "C"] ∧
    ((canonicalRecords exSeq).getD []).map (fun r => r.nctId) ≠
      [.str "C", .str "B", .str "A"] := by decide

/-- C1 (amended): the record order produced for display is ascending in the
`Status` string (Python lexicographic comparison), not in the start/end
dates; rows with equal statuses have no order guarantee. -/
theorem c1_sorted_by_status (studies : List JVal) (rows : List NormRow)
    (h : canonicalRecords studies = .ok rows) : rows.Pairwise statusLe := by
  unfold canonicalRecords processFrame at h
  split at h
  · cases h
  · rename_i rows0 hn
    cases h
    have hs : (sort_values (dropnaStartEnd rows0)).Pairwise statusLe :=
      List.sorted_insertionSort statusLe (dropnaStartEnd rows0)
    exact hs.map _ (fun a b hab => by simpa [statusLe, rewriteLink] using hab)

/-- C1 witness: the sortedness theorem applied to the concrete example. -/
theorem c1_sorted_by_status_witness :
    ((canonicalRecords exSeq).getD []).Pairwise statusLe :=
  c1_sorted_by_status exSeq ((canonicalRecords exSeq).getD []) (by decide)

/-- C2 counterexample: for input ids `A, A, B` with valid dates everywhere,
the claim promises a canonical set of exactly 2 records; the pipeline keeps
all 3 (there is no deduplication step in the code). -/
theorem c2_counterexample :
    ((canonicalRecords exDup).getD []).length = 3 ∧
    ((canonicalRecords exDup).getD []).length ≠ 2 := by decide

/-- C2 (amended): no deduplication is performed — every extracted record
with valid dates is kept, duplicates included: the `A, A, B` example yields
3 canonical records, with id `A` occurring twice and `B` once. -/
theorem c2_no_dedup :
    ((canonicalRecords exDup).getD []).length = 3 ∧
    (((canonicalRecords exDup).getD []).map (fun r => r.nctId)).count (JVal.str "A") = 2 ∧
    (((canonicalRecords exDup).getD []).map (fun r => r.nctId)).count (JVal.str "B") = 1 := by
  decide

/-- C3 counterexample: a raw record lacking `nctId` but carrying valid dates
enters the canonical set with the defaulted empty-string id, refuting the
non-empty-id invariant (uniqueness is refuted separately by the kept
duplicates of the `A, A, B` example). -/
theorem c3_counterexample :
    ((canonicalRecords [noIdStudy]).getD []).map (fun r => r.nctId) =
      [JVal.str ""] := by decide

/-- C3 (amended): canonical ids are exactly the extracted `nctId` values
(possibly the empty-string default, possibly repeated): every canonical
record's id occurs among the ids of the extracted records. -/
theorem c3_id_provenance (studies : List JVal) (rows : List NormRow) (r : NormRow)
    (h : canonicalRecords studies = .ok rows) (hr : r ∈ rows) :
    r.nctId ∈ (records studies).map (fun x => x.nctId) := by
  unfold canonicalRecords processFrame at h
  split at h
  · cases h
  · rename_i rows0 hn
    cases h
    rcases List.mem_map.mp hr with ⟨r', hr', rfl⟩
    have h1 : r' ∈ dropnaStartEnd rows0 := mem_sort_values.mp hr'
    have h2 : r' ∈ rows0 := by
      have h2' : r' ∈ rows0 ∧ r'.startDate.isSome = true ∧ r'.endDate.isSome = true := by
        simpa [dropnaStartEnd, List.mem_filter] using h1
      exact h2'.1
    have h3 : r'.nctId ∈ rows0.map (fun n => n.nctId) := List.mem_map_of_mem _ h2
    rw [normalizeAll_map_nctId hn] at h3
    simpa [rewriteLink] using h3

/-- C3 witness: the provenance theorem applied to the no-id example. -/
theorem c3_id_provenance_witness :
    (((canonicalRecords [noIdStudy]).getD []).headD dummyRow).nctId ∈
      (records [noIdStudy]).map (fun x => x.nctId) :=
  c3_id_provenance [noIdStudy] ((canonicalRecords [noIdStudy]).getD [])
    (((canonicalRecords [noIdStudy]).getD []).headD dummyRow) (by decide) (by decide)

/-- C4: every canonical record has both `Start` and `End` present as valid
day-precision calendar dates; rows missing either date are removed by
`dropna` before the sort and never reach the canonical set. -/
theorem c4_date_completeness (studies : List JVal) (rows : List NormRow)
    (h : canonicalRecords studies = .ok rows) : ∀ r ∈ rows,
    r.startDate.isSome = true ∧ r.endDate.isSome = true ∧
    r.startDate.all Date.valid = true ∧ r.endDate.all Date.valid = true := by
  unfold canonicalRecords processFrame at h
  split at h
  · cases h
  · rename_i rows0 hn
    cases h
    intro r hr
    rcases List.mem_map.mp hr with ⟨r', hr', rfl⟩
    have h1 : r' ∈ dropnaStartEnd rows0 := mem_sort_values.mp hr'
    have h2 : r' ∈ rows0 ∧ r'.startDate.isSome = true ∧ r'.endDate.isSome = true := by
      simpa [dropnaStartEnd, List.mem_filter] using h1
    have hv := normalizeAll_valid hn r' h2.1
    exact ⟨by simpa [rewriteLink] using h2.2.1, by simpa [rewriteLink] using h2.2.2,
           by simpa [rewriteLink] using hv.1, by simpa [rewriteLink] using hv.2⟩

/-- C4 witness: the completeness theorem applied to the first record of the
concrete example. -/
theorem c4_date_completeness_witness :
    (((canonicalRecords exSeq).getD []).headD dummyRow).startDate.isSome = true ∧
    (((canonicalRecords exSeq).getD []).headD dummyRow).endDate.isSome = true ∧
    (((canonicalRecords exSeq).getD []).headD dummyRow).startDate.all Date.valid = true ∧
    (((canonicalRecords exSeq).getD []).headD dummyRow).endDate.all Date.valid = true :=
  c4_date_completeness exSeq ((canonicalRecords exSeq).getD []) (by decide)
    (((canonicalRecords exSeq).getD []).headD dummyRow) (by decide)

/-- C5 counterexample: the bare year string `"2021"` fails both stated rules
(it is neither a day-precision string nor an exactly-year-month string), yet
the normalizer returns the fabricated date 2021-01-01 instead of the invalid
marker — `pd.to_datetime` accepts more formats than the two rules. -/
theorem c5_counterexample :
    normalize_date (.str "2021") = .ok (some ⟨2021, 1, 1⟩) ∧
    normalize_date (.str "2021") ≠ .ok none := by decide

/-- C5 (amended): day-precision strings parse directly; exactly-7-character
strings are completed with `"-01"` (so `"2021-06"` becomes 2021-06-01);
empty or absent values give the invalid marker; but strings failing both
rules may still parse, e.g. a bare year completes to January 1 — the invalid
marker is produced only when the underlying parser rejects the string. -/
theorem c5_normalization_cases :
    normalize_date (.str "2021-06") = .ok (some ⟨2021, 6, 1⟩) ∧
    normalize_date (.str "2021-03-15") = .ok (some ⟨2021, 3, 15⟩) ∧
    normalize_date (.str "") = .ok none ∧
    normalize_date .null = .ok none ∧
    normalize_date (.str "not a date") = .ok none ∧
    normalize_date (.str "2021") = .ok (some ⟨2021, 1, 1⟩) := by decide

/-- C6 counterexample: in the rendered example view the bars carry the bare
ids `A, B, C` as their labels; no label of the claimed `id (rank)` shape
such as `"A (1)"` occurs — the code computes no rank and no composite
bar label. -/
theorem c6_counterexample :
    (renderBars exSeq).map (fun b => b.text) = [.str "A", .str "B", .str "C"] ∧
    ¬ JVal.str "A (1)" ∈ (renderBars exSeq).map (fun b => b.text) := by decide

/-- C6 (amended): each timeline bar's label is exactly the record's id: the
bar texts of any rendered view equal the id column of the processed frame,
with no rank computed and no parenthesised suffix appended. -/
theorem c6_bar_text (studies : List JVal) :
    (renderBars studies).map (fun b => b.text) =
      ((canonicalRecords studies).getD []).map (fun r => r.nctId) := by
  unfold renderBars render canonicalRecords
  by_cases h : (records studies).isEmpty
  · have hrec : records studies = [] := List.isEmpty_iff.mp h
    simp [h, hrec, processFrame, normalizeAll, dropnaStartEnd, sort_values,
          List.insertionSort, PyResult.getD]
  · cases hf : processFrame (records studies) with
    | exn => simp [h, hf, PyResult.getD]
    | ok df => simp [h, hf, PyResult.getD, List.map_map, toBar]

/-- C7: a raw record whose extraction raises a structural error contributes
nothing to the extracted list — not even a partial record — and the rest of
the batch is processed exactly as if the bad record were absent. -/
theorem c7_skip_malformed (xs ys : List JVal) (bad : JVal)
    (h : extractStudy bad = none) :
    records (xs ++ bad :: ys) = records (xs ++ ys) := by
  simp [records, List.filterMap_append, List.filterMap_cons, h]

/-- C7 witness: the skip theorem applied to a malformed record between two
well-formed ones. -/
theorem c7_skip_malformed_witness :
    records ([studyJson "A" "COMPLETED" "2021-01-01" "2021-02-01"] ++
      malformedStudy :: [studyJson "B" "RECRUITING" "2021-03-01" "2021-04-01"]) =
    records ([studyJson "A" "COMPLETED" "2021-01-01" "2021-02-01"] ++
      [studyJson "B" "RECRUITING" "2021-03-01" "2021-04-01"]) :=
  c7_skip_malformed _ _ _ (by decide)

/-- C8 counterexample: a batch whose single record extracts fine but loses
both dates to normalization renders the normal page with an empty table and
an empty chart — not the `No results found` warning state the claim
requires when zero records survive extraction *and* date filtering. -/
theorem c8_counterexample :
    render [badDatesStudy] = .page [] [] ∧
    render [badDatesStudy] ≠ .warning := by decide

/-- C8 (amended): the empty-result warning state occurs exactly when zero
records survive extraction — the check runs before date filtering, so a
non-empty extraction whose rows are all dropped by `dropna` still renders
an (empty) chart page. -/
theorem c8_warning_iff_no_extracted (studies : List JVal) :
    render studies = .warning ↔ records studies = [] := by
  unfold render
  cases hrec : records studies with
  | nil => simp [hrec]
  | cons r rs =>
    simp only [hrec, List.isEmpty_cons, Bool.false_eq_true, if_false]
    cases hf : processFrame (r :: rs) <;> simp [hf]

/-- C9: the table projection and the timeline projection of any rendered
view have the same number of entries, and entrywise the table row's link
cell is the HTML anchor built from the same id that labels the
corresponding bar — the two views list the same records in the same order. -/
theorem c9_projections_agree (studies : List JVal) :
    (renderTable studies).length = (renderBars studies).length ∧
    (renderTable studies).map (fun t => t.link) =
      (renderBars studies).map (fun b => anchorHtml b.text) := by
  unfold renderTable renderBars render processFrame
  by_cases h : (records studies).isEmpty
  · simp [h]
  · cases hn : normalizeAll (records studies) with
    | exn => simp [h, hn]
    | ok rows0 => simp [h, hn, List.map_map, toTableRow, toBar, rewriteLink]

/-- C10 counterexample: a JSON object (Python `dict`) reaching a date cell
makes `pd.to_datetime` raise even under `errors='coerce'` (pandas treats a
mapping as date-part assembly and demands `year`/`month`/`day` keys before
applying the error policy), so `normalize_date` is not total over arbitrary
cell values. -/
theorem c10_counterexample : normalize_date (jobj []) = PyResult.exn := by decide

/-- C10 (amended): on string and absent inputs the normalizer is total —
it returns a timestamp or the invalid marker and never raises — and the
month-completion rule fires on length alone: every 7-character string gets
`"-01"` appended before parsing, with malformed results coerced to the
invalid marker; only non-scalar values such as mappings can raise. -/
theorem c10_normalize_total_on_strings :
    (∀ s : String, normalize_date (.str s) ≠ PyResult.exn) ∧
    (∀ s : String, s.length = 7 →
      normalize_date (.str s) = pd_to_datetime (.str (s ++ "-01"))) ∧
    normalize_date .null = .ok none ∧
    normalize_date (.str "XYZ-A42") = .ok none := by
  refine ⟨?_, ?_, by decide, by decide⟩
  · intro s
    simp [normalize_date, pd_to_datetime]
  · intro s h
    simp [normalize_date, h]

/-- C10 witness: the length-7 completion rule applied to a concrete
month-precision string. -/
theorem c10_normalize_total_on_strings_witness :
    normalize_date (.str "2021-06") = pd_to_datetime (.str ("2021-06" ++ "-01")) :=
  c10_normalize_total_on_strings.2.1 "2021-06" (by decide)
